import Mathlib

/-
Verification of the `Closed01` value type from src/src/lib.rs.

The Rust type `Closed01<F>` wraps a single scalar of a floating-point-like
type `F` (constrained by `BaseFloat`).  We shallowly embed the scalar as `ℚ`
(exact arithmetic with the `zero`/`one` constants, ordering and the four
arithmetic operations that the `BaseFloat` bound provides).  The checked
constructor's `assert!` is modelled as `Option`: `none` is the assertion
failure.  `debug_assert!` is compiled out in release builds, so
`new_debug_checked` constructs unconditionally; the range-closure theorems
carry the invariant explicitly instead.
-/

namespace Closed01Spec

/-- Embedding of `pub struct Closed01<F>(F)` with the scalar modelled as `ℚ`. -/
structure Closed01 where
  val : ℚ
deriving DecidableEq, Repr

namespace Closed01

/-- `pub fn new(f: F) -> Self { assert!(f >= F::zero() && f <= F::one()); Closed01(f) }`.
The `assert!` failure is modelled as `none`. -/
def new (f : ℚ) : Option Closed01 :=
  if 0 ≤ f ∧ f ≤ 1 then some ⟨f⟩ else none

/-- `fn new_debug_checked(f: F) -> Self { debug_assert!(...); Closed01(f) }`:
the debug assertion is absent in release builds, so this constructs directly. -/
def new_debug_checked (f : ℚ) : Closed01 :=
  ⟨f⟩

/-- `pub fn zero() -> Self`. -/
def zero : Closed01 :=
  new_debug_checked 0

/-- `pub fn center() -> Self { Closed01::new_debug_checked(F::one() / (F::one() + F::one())) }`. -/
def center : Closed01 :=
  new_debug_checked (1 / (1 + 1))

/-- `pub fn one() -> Self`. -/
def one : Closed01 :=
  new_debug_checked 1

/-- `pub fn min(self, other: Self) -> Self { if self.0 <= other.0 { self } else { other } }`. -/
def min (self other : Closed01) : Closed01 :=
  if self.val ≤ other.val then self else other

/-- `pub fn max(self, other: Self) -> Self { if self.0 >= other.0 { self } else { other } }`. -/
def max (self other : Closed01) : Closed01 :=
  if self.val ≥ other.val then self else other

/-- `pub fn distance(self, other: Self) -> Self`: `let dist = self.0 - other.0`,
negated when negative. -/
def distance (self other : Closed01) : Closed01 :=
  if self.val - other.val < 0 then new_debug_checked (-(self.val - other.val))
  else new_debug_checked (self.val - other.val)

/-- `pub fn get(self) -> F { debug_assert!(...); self.0 }`. -/
def get (self : Closed01) : ℚ :=
  self.val

/-- `pub fn average(self, other: Self) -> Self`:
`(self.get() + other.get()) / (F::one() + F::one())`. -/
def average (self other : Closed01) : Closed01 :=
  new_debug_checked ((self.get + other.get) / (1 + 1))

/-- `pub fn saturating_add(self, other: Self) -> Self`:
`let sum = self.0 + other.0`; clamps to one when `sum > 1`. -/
def saturating_add (self other : Closed01) : Closed01 :=
  if self.val + other.val > 1 then new_debug_checked 1
  else new_debug_checked (self.val + other.val)

/-- `pub fn saturating_sub(self, other: Self) -> Self`:
`let sub = self.0 - other.0`; clamps to zero when `sub < 0`. -/
def saturating_sub (self other : Closed01) : Closed01 :=
  if self.val - other.val < 0 then new_debug_checked 0
  else new_debug_checked (self.val - other.val)

/-- `pub fn mul(self, scalar: Self) -> Self`: `self.get() * scalar.get()`. -/
def mul (self scalar : Closed01) : Closed01 :=
  new_debug_checked (self.get * scalar.get)

/-- `pub fn approx_eq(self, other: Self, eps: Self) -> bool`:
`self.distance(other) < eps`, where `<` is the derived `PartialOrd` on the
single-field struct, i.e. comparison of the wrapped scalars. -/
def approx_eq (self other eps : Closed01) : Bool :=
  decide ((self.distance other).val < eps.val)

/-- `pub fn scale_up(self, other: Self) -> Self`:
`self.0 + (F::one() - self.0) * other.0`. -/
def scale_up (self other : Closed01) : Closed01 :=
  new_debug_checked (self.val + (1 - self.val) * other.val)

/-- `pub fn scale_down(self, other: Self) -> Self`:
`self.0 - self.0 * other.0`. -/
def scale_down (self other : Closed01) : Closed01 :=
  new_debug_checked (self.val - self.val * other.val)

/-- `pub fn inv(self) -> Self`: `F::one() - self.0`. -/
def inv (self : Closed01) : Closed01 :=
  new_debug_checked (1 - self.val)

/-- `pub fn round(self) -> Self`: `if self < Closed01::center() { zero } else { one }`,
where `<` is the derived `PartialOrd`, i.e. comparison of the wrapped scalars. -/
def round (self : Closed01) : Closed01 :=
  if self.val < center.val then zero else one

/-- The type invariant `0 <= value <= 1` (inclusive of both endpoints). -/
def InRange (a : Closed01) : Prop :=
  0 ≤ a.val ∧ a.val ≤ 1

instance (a : Closed01) : Decidable (InRange a) := by
  unfold InRange
  infer_instance

end Closed01

/-- Two wrapped values are equal when their scalars are. -/
lemma eq_of_val_eq {a b : Closed01} (h : a.val = b.val) : a = b := by
  cases a
  cases b
  cases h
  rfl

/-- `distance` computes the absolute difference of the wrapped scalars. -/
lemma distance_val (a b : Closed01) : (a.distance b).val = |a.val - b.val| := by
  unfold Closed01.distance Closed01.new_debug_checked
  split_ifs with h
  · exact (abs_of_neg h).symm
  · exact (abs_of_nonneg (not_lt.mp h)).symm

/-- C1: for every pair of values `a, b` already in `[0,1]`, every derived-value
operation — `distance`, `average`, `saturating_add`, `saturating_sub`, `mul`,
`scale_up`, `scale_down`, `inv`, `round`, `min`, `max` — returns a value that
is again in the closed interval `[0,1]`, inclusive of both endpoints. -/
theorem range_closure (a b : Closed01) (ha : a.InRange) (hb : b.InRange) :
    (a.distance b).InRange ∧ (a.average b).InRange ∧ (a.saturating_add b).InRange ∧
      (a.saturating_sub b).InRange ∧ (a.mul b).InRange ∧ (a.scale_up b).InRange ∧
      (a.scale_down b).InRange ∧ a.inv.InRange ∧ a.round.InRange ∧
      (a.min b).InRange ∧ (a.max b).InRange := by
  obtain ⟨ha0, ha1⟩ := ha
  obtain ⟨hb0, hb1⟩ := hb
  refine ⟨?_, ?_, ?_, ?_, ?_, ?_, ?_, ?_, ?_, ?_, ?_⟩
  · unfold Closed01.distance Closed01.new_debug_checked Closed01.InRange
    split_ifs with h <;> constructor <;> simp <;> linarith
  · unfold Closed01.average Closed01.get Closed01.new_debug_checked Closed01.InRange
    constructor <;> simp <;> linarith
  · unfold Closed01.saturating_add Closed01.new_debug_checked Closed01.InRange
    split_ifs with h <;> constructor <;> simp <;> linarith
  · unfold Closed01.saturating_sub Closed01.new_debug_checked Closed01.InRange
    split_ifs with h <;> constructor <;> simp <;> linarith
  · unfold Closed01.mul Closed01.get Closed01.new_debug_checked Closed01.InRange
    exact ⟨mul_nonneg ha0 hb0, by show a.val * b.val ≤ 1; nlinarith⟩
  · unfold Closed01.scale_up Closed01.new_debug_checked Closed01.InRange
    constructor <;> simp <;> nlinarith
  · unfold Closed01.scale_down Closed01.new_debug_checked Closed01.InRange
    constructor <;> simp <;> nlinarith
  · unfold Closed01.inv Closed01.new_debug_checked Closed01.InRange
    constructor <;> simp <;> linarith
  · unfold Closed01.round Closed01.center Closed01.zero Closed01.one
      Closed01.new_debug_checked Closed01.InRange
    split_ifs with h <;> constructor <;> norm_num
  · unfold Closed01.min
    split_ifs with h
    · exact ⟨ha0, ha1⟩
    · exact ⟨hb0, hb1⟩
  · unfold Closed01.max
    split_ifs with h
    · exact ⟨ha0, ha1⟩
    · exact ⟨hb0, hb1⟩

/-- Witness for C1 at `a = 1/2`, `b = 1/3`. -/
theorem range_closure_witness :
    ((⟨1/2⟩ : Closed01).distance ⟨1/3⟩).InRange ∧
      ((⟨1/2⟩ : Closed01).average ⟨1/3⟩).InRange ∧
      ((⟨1/2⟩ : Closed01).saturating_add ⟨1/3⟩).InRange ∧
      ((⟨1/2⟩ : Closed01).saturating_sub ⟨1/3⟩).InRange ∧
      ((⟨1/2⟩ : Closed01).mul ⟨1/3⟩).InRange ∧
      ((⟨1/2⟩ : Closed01).scale_up ⟨1/3⟩).InRange ∧
      ((⟨1/2⟩ : Closed01).scale_down ⟨1/3⟩).InRange ∧
      (⟨1/2⟩ : Closed01).inv.InRange ∧ (⟨1/2⟩ : Closed01).round.InRange ∧
      ((⟨1/2⟩ : Closed01).min ⟨1/3⟩).InRange ∧
      ((⟨1/2⟩ : Closed01).max ⟨1/3⟩).InRange :=
  range_closure ⟨1/2⟩ ⟨1/3⟩ (by unfold Closed01.InRange; norm_num)
    (by unfold Closed01.InRange; norm_num)

/-- C2: `new(value)` fails for every input with `value < 0` or `value > 1`, and
succeeds — returning the value unchanged, never clamped — for every input with
`0 ≤ value ≤ 1`; in particular `new(-0.0001)` and `new(1.0001)` fail while
`new(0.0)` and `new(1.0)` succeed. -/
theorem new_spec :
    (∀ v : ℚ, (v < 0 ∨ 1 < v) → Closed01.new v = none) ∧
      (∀ v : ℚ, 0 ≤ v → v ≤ 1 → Closed01.new v = some ⟨v⟩) ∧
      Closed01.new (-(1/10000)) = none ∧ Closed01.new (10001/10000) = none ∧
      Closed01.new 0 = some ⟨0⟩ ∧ Closed01.new 1 = some ⟨1⟩ := by
  refine ⟨?_, ?_, ?_, ?_, ?_, ?_⟩
  · rintro v (h | h) <;> unfold Closed01.new <;>
      rw [if_neg (by rintro ⟨h0, h1⟩; linarith)]
  · intro v h0 h1
    unfold Closed01.new
    rw [if_pos ⟨h0, h1⟩]
  · unfold Closed01.new
    rw [if_neg (by norm_num)]
  · unfold Closed01.new
    rw [if_neg (by norm_num)]
  · unfold Closed01.new
    rw [if_pos (by norm_num)]
  · unfold Closed01.new
    rw [if_pos (by norm_num)]

/-- Witness for C2 at `v = -1` (failure) and `v = 1/2` (success). -/
theorem new_spec_witness :
    Closed01.new (-1) = none ∧ Closed01.new (1/2) = some ⟨1/2⟩ :=
  ⟨new_spec.1 (-1) (Or.inl (by norm_num)), new_spec.2.1 (1/2) (by norm_num) (by norm_num)⟩

/-- C3: `inv(a)` equals `1 - a`, and `inv` is an involution:
`inv(inv(a)) = a` exactly, for every value. -/
theorem inv_involution (a : Closed01) : a.inv.val = 1 - a.val ∧ a.inv.inv = a := by
  obtain ⟨x⟩ := a
  refine ⟨rfl, eq_of_val_eq ?_⟩
  show 1 - (1 - x) = x
  ring

/-- C4: `saturating_add(a, b)` equals `min(1, a + b)` (it clamps at the upper
bound only); in particular `0.4 + 0.6` yields exactly `1.0` and `0.4 + 0.7`
clamps to `1.0`. -/
theorem saturating_add_spec :
    (∀ a b : Closed01, (a.saturating_add b).val = Min.min 1 (a.val + b.val)) ∧
      (⟨4/10⟩ : Closed01).saturating_add ⟨6/10⟩ = Closed01.one ∧
      (⟨4/10⟩ : Closed01).saturating_add ⟨7/10⟩ = Closed01.one := by
  refine ⟨?_, ?_, ?_⟩
  · intro a b
    unfold Closed01.saturating_add Closed01.new_debug_checked
    split_ifs with h
    · exact (min_eq_left h.le).symm
    · exact (min_eq_right (not_lt.mp h)).symm
  · unfold Closed01.saturating_add
    rw [if_neg (by show ¬((4:ℚ)/10 + 6/10 > 1); norm_num)]
    exact eq_of_val_eq (by show (4:ℚ)/10 + 6/10 = 1; norm_num)
  · unfold Closed01.saturating_add
    rw [if_pos (by show (4:ℚ)/10 + 7/10 > 1; norm_num)]
    rfl

/-- C5: `round(a)` returns `0` whenever `a < 0.5` and returns `1` otherwise;
the tie at exactly `0.5` rounds up to `1`, so `round(0.5) = one` and
`round(0.49999) = zero`. -/
theorem round_spec :
    (∀ a : Closed01, a.val < 1/2 → a.round = Closed01.zero) ∧
      (∀ a : Closed01, 1/2 ≤ a.val → a.round = Closed01.one) ∧
      (⟨1/2⟩ : Closed01).round = Closed01.one ∧
      (⟨49999/100000⟩ : Closed01).round = Closed01.zero := by
  refine ⟨?_, ?_, ?_, ?_⟩
  · intro a h
    unfold Closed01.round
    rw [if_pos (show a.val < Closed01.center.val by
      show a.val < 1 / (1 + 1); linarith)]
  · intro a h
    unfold Closed01.round
    rw [if_neg (show ¬a.val < Closed01.center.val by
      show ¬a.val < 1 / (1 + 1); push_neg; linarith)]
  · unfold Closed01.round
    rw [if_neg (by show ¬((1:ℚ)/2 < 1/(1+1)); norm_num)]
  · unfold Closed01.round
    rw [if_pos (by show (49999:ℚ)/100000 < 1/(1+1); norm_num)]

/-- Witness for C5 at `a = 0` (rounds down) and `a = 1` (rounds up). -/
theorem round_spec_witness :
    (⟨0⟩ : Closed01).round = Closed01.zero ∧ (⟨1⟩ : Closed01).round = Closed01.one :=
  ⟨round_spec.1 ⟨0⟩ (by norm_num), round_spec.2.1 ⟨1⟩ (by norm_num)⟩

/-- C6: `min(a, b)` and `max(a, b)` return the first argument `a` unless it is
strictly beaten by `b`: when the two values are equal both return `a`, and
otherwise `min` returns the smaller and `max` the greater of the two. -/
theorem minmax_spec :
    (∀ a b : Closed01, a.val = b.val → a.min b = a ∧ a.max b = a) ∧
      (∀ a b : Closed01, (a.min b).val = Min.min a.val b.val) ∧
      (∀ a b : Closed01, (a.max b).val = Max.max a.val b.val) := by
  refine ⟨?_, ?_, ?_⟩
  · intro a b h
    constructor
    · unfold Closed01.min
      rw [if_pos h.le]
    · unfold Closed01.max
      rw [if_pos h.ge]
  · intro a b
    unfold Closed01.min
    split_ifs with h
    · exact (min_eq_left h).symm
    · exact (min_eq_right (le_of_not_le h)).symm
  · intro a b
    unfold Closed01.max
    split_ifs with h
    · exact (max_eq_left h).symm
    · exact (max_eq_right (le_of_not_le h)).symm

/-- Witness for C6 at the tie `a = b = 1/2`. -/
theorem minmax_spec_witness :
    (⟨1/2⟩ : Closed01).min ⟨1/2⟩ = ⟨1/2⟩ ∧ (⟨1/2⟩ : Closed01).max ⟨1/2⟩ = ⟨1/2⟩ :=
  minmax_spec.1 ⟨1/2⟩ ⟨1/2⟩ rfl

/-- C7: `scale_up(a, zero) = a` and `scale_down(a, zero) = a` (zero is the
identity fraction), `scale_up(a, one) = one`, and `scale_down(a, one) = zero`,
for every `a`. -/
theorem scale_spec (a : Closed01) :
    a.scale_up Closed01.zero = a ∧ a.scale_down Closed01.zero = a ∧
      a.scale_up Closed01.one = Closed01.one ∧
      a.scale_down Closed01.one = Closed01.zero := by
  obtain ⟨x⟩ := a
  refine ⟨eq_of_val_eq ?_, eq_of_val_eq ?_, eq_of_val_eq ?_, eq_of_val_eq ?_⟩
  · show x + (1 - x) * 0 = x
    ring
  · show x - x * 0 = x
    ring
  · show x + (1 - x) * 1 = 1
    ring
  · show x - x * 1 = 0
    ring

/-- C8: `approx_eq(a, b, eps)` returns true if and only if
`distance(a, b) = |a - b|` is strictly less than `eps`: false whenever the
distance equals `eps` exactly, true whenever it is strictly smaller. -/
theorem approx_eq_spec :
    (∀ a b : Closed01, (a.distance b).val = |a.val - b.val|) ∧
      (∀ a b e : Closed01, a.approx_eq b e = true ↔ |a.val - b.val| < e.val) ∧
      (∀ a b e : Closed01, |a.val - b.val| = e.val → a.approx_eq b e = false) := by
  refine ⟨distance_val, ?_, ?_⟩
  · intro a b e
    unfold Closed01.approx_eq
    rw [distance_val, decide_eq_true_iff]
  · intro a b e h
    unfold Closed01.approx_eq
    rw [distance_val, h, decide_eq_false_iff_not]
    exact lt_irrefl _

/-- Witness for C8: values at exactly epsilon distance are not approximately
equal, at `a = 1/2`, `b = 1/4`, `eps = 1/4`. -/
theorem approx_eq_spec_witness :
    (⟨1/2⟩ : Closed01).approx_eq ⟨1/4⟩ ⟨1/4⟩ = false :=
  approx_eq_spec.2.2 ⟨1/2⟩ ⟨1/4⟩ ⟨1/4⟩ (by norm_num)

/-- C9: with a zero epsilon no pair of values is approximately equal:
`approx_eq(a, b, zero)` is false for every `a` and `b`, even when `a = b`. -/
theorem approx_eq_zero_eps (a b : Closed01) : a.approx_eq b Closed01.zero = false := by
  unfold Closed01.approx_eq Closed01.zero Closed01.new_debug_checked
  rw [distance_val, decide_eq_false_iff_not]
  exact not_lt.mpr (abs_nonneg _)

/-- C10: `round` always returns exactly `zero` or exactly `one`, and is
idempotent: `round(round(a)) = round(a)` for every `a`. -/
theorem round_idempotent (a : Closed01) :
    (a.round = Closed01.zero ∨ a.round = Closed01.one) ∧ a.round.round = a.round := by
  have hz : Closed01.zero.round = Closed01.zero := by
    unfold Closed01.round
    rw [if_pos (by show (0:ℚ) < 1/(1+1); norm_num)]
  have ho : Closed01.one.round = Closed01.one := by
    unfold Closed01.round
    rw [if_neg (by show ¬((1:ℚ) < 1/(1+1)); norm_num)]
  by_cases h : a.val < Closed01.center.val
  · have hr : a.round = Closed01.zero := by
      unfold Closed01.round
      rw [if_pos h]
    rw [hr]
    exact ⟨Or.inl rfl, hz⟩
  · have hr : a.round = Closed01.one := by
      unfold Closed01.round
      rw [if_neg h]
    rw [hr]
    exact ⟨Or.inr rfl, ho⟩

end Closed01Spec
